import Mathlib

/-!
Verification development for the OptoGrid headless BLE client
(`headless_optogrid_backend.py`).

Shallow-embedding conventions used throughout this file:

* Byte strings are `List Nat` with every element understood to be `< 256`.
* Python `str` values are Lean `String`s; where kernel-computable recursion
  is needed, functions work on `String.data : List Char` (Python strings are
  sequences of unicode code points, as are Lean `String`s).
* Python floats are modelled as exact rationals `ℚ` (the decimal literals of
  the source are taken at face value).
* Fallible Python code (functions that raise) is modelled with `Option`:
  `none` is the raising outcome, which callers' `try/except` blocks turn
  into the textual replies modelled here.
* `numpy` norm comparisons `‖v‖ > c` against nonnegative constants are
  encoded on squares, `‖v‖² > c²`, which is equivalent for `c ≥ 0` and keeps
  everything inside `ℚ`.
* The BLE transport, the EKF fusion filter and `q2euler` (external
  libraries `bleak` and `ahrs`) are abstracted: device-touching actions are
  fields of an environment record, and the fusion filter / orientation
  oracle is a function parameter.  Everything taken from the repository
  itself is translated from the source.
-/

/-! ## Character and string helpers (kernel-computable replacements for
Python `in`, `split`, `strip`, `int(...)`, `str.lower`) -/

/-- Bool test whether `pat` occurs as a contiguous sublist of the second
argument; models Python `pat in s` for strings. -/
def hasSubList (pat : List Char) : List Char → Bool
  | [] => pat.isEmpty
  | c :: rest => pat.isPrefixOf (c :: rest) || hasSubList pat rest

/-- Python `pat in s` (substring containment). -/
def strContains (s pat : String) : Bool := hasSubList pat.data s.data

/-- Python `s.split(sep)` for a one-character separator: the result always
has at least one element, and empty fields are kept. -/
def splitOnChar (sep : Char) : List Char → List (List Char)
  | [] => [[]]
  | c :: rest =>
    let r := splitOnChar sep rest
    if c = sep then [] :: r
    else
      match r with
      | h :: t => (c :: h) :: t
      | [] => [[c]]

/-- Whitespace test for Python `str.strip()` (ASCII whitespace; the
messages handled by the backend are ASCII). -/
def isPySpace (c : Char) : Bool :=
  c == ' ' || c == '\t' || c == '\n' || c == '\r' || c.toNat == 11 || c.toNat == 12

/-- Python `s.strip()` on a character list. -/
def stripChars (cs : List Char) : List Char :=
  ((cs.dropWhile isPySpace).reverse.dropWhile isPySpace).reverse

/-- Python `s.strip()`. -/
def pyStrip (s : String) : String := String.mk (stripChars s.data)

/-- Accumulating decimal parser: `none` if any character is not a digit or
the digit list is empty. -/
def digitsToNat : List Char → Option Nat → Option Nat
  | [], acc => acc
  | c :: cs, acc =>
    if 48 ≤ c.toNat ∧ c.toNat ≤ 57 then
      digitsToNat cs (some ((acc.getD 0) * 10 + (c.toNat - 48)))
    else none

/-- Python `int(s)` on a character list: strips whitespace, accepts an
optional sign, then decimal digits only (base-10 only, as in the source's
`int(...)` calls; underscore grouping is not used by any caller). -/
def pyIntChars (cs : List Char) : Option Int :=
  match stripChars cs with
  | '-' :: rest => (digitsToNat rest none).map (fun n => -(n : Int))
  | '+' :: rest => (digitsToNat rest none).map (fun n => (n : Int))
  | rest => (digitsToNat rest none).map (fun n => (n : Int))

/-- Python `int(s)`. -/
def pyInt (s : String) : Option Int := pyIntChars s.data

/-- ASCII lowering of one character, for Python `str.lower()` (every value
compared by the source is ASCII). -/
def lowerChar (c : Char) : Char :=
  if 65 ≤ c.toNat ∧ c.toNat ≤ 90 then Char.ofNat (c.toNat + 32) else c

/-- Python `s.lower()`. -/
def pyLower (s : String) : String := String.mk (s.data.map lowerChar)

/-! ## Byte-level helpers -/

/-- Little-endian bytes of `n`, `k` bytes long (`struct.pack` for the
unsigned formats `<B`, `<H`, `<I`, `<Q`). -/
def leBytes (k n : Nat) : List Nat := (List.range k).map (fun i => n / 256 ^ i % 256)

/-- Little-endian value of a byte list (`int.from_bytes(data, 'little')`;
like the Python original it accepts any length, empty gives `0`). -/
def fromLe (bs : List Nat) : Nat := bs.foldr (fun b acc => b + 256 * acc) 0

/-- Signed 16-bit little-endian value of two bytes (`struct.unpack('<h', ...)`). -/
def int16le (b0 b1 : Nat) : Int :=
  let u := b0 + 256 * b1
  if 32768 ≤ u then (u : Int) - 65536 else (u : Int)

/-- Lowercase hex digit. -/
def hexDigit (n : Nat) : Char :=
  if n < 10 then Char.ofNat (48 + n) else Char.ofNat (87 + n)

/-- Python `bytes.hex()`: lowercase, two digits per byte. -/
def bytesHex (bs : List Nat) : String :=
  String.mk ((bs.map (fun b => [hexDigit (b / 16), hexDigit (b % 16)])).flatten)

/-- Value of one hex digit character, if it is one. -/
def hexDigitVal (c : Char) : Option Nat :=
  if 48 ≤ c.toNat ∧ c.toNat ≤ 57 then some (c.toNat - 48)
  else if 97 ≤ c.toNat ∧ c.toNat ≤ 102 then some (c.toNat - 87)
  else if 65 ≤ c.toNat ∧ c.toNat ≤ 70 then some (c.toNat - 55)
  else none

/-- Python `bytes.fromhex` on a character list with spaces already removed:
pairs of hex digits, failing on odd length or non-hex characters. -/
def hexPairs : List Char → Option (List Nat)
  | [] => some []
  | [_] => none
  | a :: b :: rest => do
    let ha ← hexDigitVal a
    let hb ← hexDigitVal b
    let r ← hexPairs rest
    pure ((16 * ha + hb) :: r)

/-- Python `bytes.fromhex(s.replace(' ', ''))` as used by the raw-hex
fallback of `encode_value`. -/
def bytesFromHex (s : String) : Option (List Nat) :=
  hexPairs (s.data.filter (fun c => c ≠ ' '))

/-! ## UTF-8 (for the `string` characteristic type: Python
`str.encode('utf-8')` and `bytes.decode('utf-8')`) -/

/-- UTF-8 encoding of one unicode scalar value. -/
def utf8EncodeChar (c : Char) : List Nat :=
  let n := c.toNat
  if n < 128 then [n]
  else if n < 2048 then [192 + n / 64, 128 + n % 64]
  else if n < 65536 then [224 + n / 4096, 128 + n / 64 % 64, 128 + n % 64]
  else [240 + n / 262144, 128 + n / 4096 % 64, 128 + n / 64 % 64, 128 + n % 64]

/-- Python `s.encode('utf-8')`. -/
def utf8Encode (cs : List Char) : List Nat := (cs.map utf8EncodeChar).flatten

/-- Continuation-byte test. -/
def isCont (b : Nat) : Bool := 128 ≤ b && b < 192

/-- Strict UTF-8 decoding, fueled for structural termination; rejects
overlong forms, surrogates and values above U+10FFFF exactly as Python's
strict `bytes.decode('utf-8')` does. -/
def utf8DecodeAux : Nat → List Nat → Option (List Char)
  | _, [] => some []
  | 0, _ :: _ => none
  | fuel + 1, b :: rest =>
    if b < 128 then (utf8DecodeAux fuel rest).map (List.cons (Char.ofNat b))
    else if 194 ≤ b ∧ b ≤ 223 then
      match rest with
      | b1 :: r =>
        if isCont b1 then
          (utf8DecodeAux fuel r).map (List.cons (Char.ofNat ((b - 192) * 64 + (b1 - 128))))
        else none
      | [] => none
    else if 224 ≤ b ∧ b ≤ 239 then
      match rest with
      | b1 :: b2 :: r =>
        if (if b = 224 then 160 else 128) ≤ b1 ∧ b1 ≤ (if b = 237 then 159 else 191) ∧
            isCont b2 then
          (utf8DecodeAux fuel r).map
            (List.cons (Char.ofNat ((b - 224) * 4096 + (b1 - 128) * 64 + (b2 - 128))))
        else none
      | _ => none
    else if 240 ≤ b ∧ b ≤ 244 then
      match rest with
      | b1 :: b2 :: b3 :: r =>
        if (if b = 240 then 144 else 128) ≤ b1 ∧ b1 ≤ (if b = 244 then 143 else 191) ∧
            isCont b2 ∧ isCont b3 then
          (utf8DecodeAux fuel r).map
            (List.cons (Char.ofNat
              ((b - 240) * 262144 + (b1 - 128) * 4096 + (b2 - 128) * 64 + (b3 - 128))))
        else none
      | _ => none
    else none

/-- Python `data.decode('utf-8')`, `none` when the bytes are not valid UTF-8. -/
def utf8Decode (l : List Nat) : Option (List Char) := utf8DecodeAux l.length l

/-- Python `s.rstrip('\x00')`: drop trailing NUL characters. -/
def rstripNul (cs : List Char) : List Char :=
  (cs.reverse.dropWhile (fun c => c = '\x00')).reverse

/-! ## The GATT characteristic type table and codec
(`uuid_to_type`, `decode_value`, `encode_value` of the source) -/

/-- The `uuid_to_type` dictionary of the source, reproduced entry for entry. -/
def uuid_to_type : List (String × String) := [
  ("56781500-5678-1234-1234-5678abcdeff0", "string"),
  ("56781501-5678-1234-1234-5678abcdeff0", "string"),
  ("56781503-5678-1234-1234-5678abcdeff0", "string"),
  ("56781504-5678-1234-1234-5678abcdeff0", "uint64"),
  ("56781506-5678-1234-1234-5678abcdeff0", "uint16"),
  ("56781507-5678-1234-1234-5678abcdeff0", "bool"),
  ("56781508-5678-1234-1234-5678abcdeff0", "bool"),
  ("56781509-5678-1234-1234-5678abcdeff0", "string"),
  ("5678150a-5678-1234-1234-5678abcdeff0", "uint32"),
  ("56781600-5678-1234-1234-5678abcdeff0", "uint8"),
  ("56781601-5678-1234-1234-5678abcdeff0", "uint64"),
  ("56781602-5678-1234-1234-5678abcdeff0", "uint16"),
  ("56781603-5678-1234-1234-5678abcdeff0", "uint16"),
  ("56781604-5678-1234-1234-5678abcdeff0", "uint16"),
  ("56781605-5678-1234-1234-5678abcdeff0", "uint8"),
  ("56781606-5678-1234-1234-5678abcdeff0", "uint32"),
  ("56781607-5678-1234-1234-5678abcdeff0", "uint16"),
  ("56781608-5678-1234-1234-5678abcdeff0", "uint16"),
  ("56781609-5678-1234-1234-5678abcdeff0", "bool"),
  ("56781700-5678-1234-1234-5678abcdeff0", "bool"),
  ("56781701-5678-1234-1234-5678abcdeff0", "uint8"),
  ("56781702-5678-1234-1234-5678abcdeff0", "uint8"),
  ("56781703-5678-1234-1234-5678abcdeff0", "uint32+int16[9]"),
  ("8ec90003-f315-4f60-9fb8-838830daea50", "bool")]

/-- `uuid_to_type.get(uuid, "hex")`. -/
def lookupType (uuid : String) : String := (List.lookup uuid uuid_to_type).getD "hex"

/-- The UUID of the IMU Data characteristic. -/
def imuDataUuid : String := "56781703-5678-1234-1234-5678abcdeff0"

/-- The source's `decode_value(uuid, data)` (its `try/except` returns the
sentinel `"<decode error>"` on any raising branch).  The `"float"` branch of
the source is omitted: no entry of `uuid_to_type` carries that tag, so the
branch is unreachable for every input.  For the composite IMU tag the
source raises exactly when some 2-byte slice `data[4+i:4+i+2]` is short,
i.e. when fewer than 22 bytes are present. -/
def decode_value (uuid : String) (data : List Nat) : String :=
  let type_str := lookupType uuid
  if type_str = "string" then
    match utf8Decode data with
    | some cs => String.mk (rstripNul cs)
    | none => "<decode error>"
  else if type_str = "uint8" then
    match data with
    | [] => "<decode error>"
    | b :: _ => toString b
  else if type_str = "uint16" then toString (fromLe (data.take 2))
  else if type_str = "uint32" then toString (fromLe (data.take 4))
  else if type_str = "uint64" then toString (fromLe (data.take 8))
  else if type_str = "bool" then
    match data with
    | [] => "<decode error>"
    | b :: _ => if b = 1 then "True" else "False"
  else if type_str = "uint32+int16[9]" then
    if 22 ≤ data.length then
      let sample := fromLe (data.take 4)
      let vals := (List.range 9).map
        (fun i => int16le (data.getD (4 + 2 * i) 0) (data.getD (5 + 2 * i) 0))
      toString sample ++ ", " ++ String.intercalate ", " (vals.map toString)
    else "<decode error>"
  else bytesHex data

/-- The source's `encode_value(uuid, value_str)`; `none` models the
`ValueError` it raises when parsing or packing fails.  The `"float"` branch
is again unreachable and omitted.  `struct.pack` range errors and `int()`
parse errors both raise, so both map to `none`. -/
def encode_value (uuid : String) (value_str : String) : Option (List Nat) :=
  let type_str := lookupType uuid
  if type_str = "string" then some (utf8Encode value_str.data)
  else if type_str = "uint8" then
    (pyInt value_str).bind (fun n => if 0 ≤ n ∧ n < 256 then some (leBytes 1 n.toNat) else none)
  else if type_str = "uint16" then
    (pyInt value_str).bind (fun n => if 0 ≤ n ∧ n < 65536 then some (leBytes 2 n.toNat) else none)
  else if type_str = "uint32" then
    (pyInt value_str).bind
      (fun n => if 0 ≤ n ∧ n < 4294967296 then some (leBytes 4 n.toNat) else none)
  else if type_str = "uint64" then
    (pyInt value_str).bind
      (fun n => if 0 ≤ n ∧ n < 18446744073709551616 then some (leBytes 8 n.toNat) else none)
  else if type_str = "bool" then
    some [if (["true", "1", "yes"] : List String).contains (pyLower value_str) then 1 else 0]
  else bytesFromHex value_str

/-! ## The command dispatcher (`HeadlessOptoGridClient.handle_command` and
the surrounding `run` loop) -/

/-- Opcodes of the dispatcher, one per `if/elif` branch of
`handle_command` (the second, dead `optogrid.gattread` branch of the
source shares the `gattread` constructor). -/
inductive Opcode where
  | trigger
  | scan
  | status
  | connect
  | gattread
  | enableIMU
  | disableIMU
  | startIMULog
  | stopIMULog
  | readbattery
  | readuLEDCheck
  | readlastStim
  | sync
  | toggleStatusLED
  | toggleShamLED
  | program
deriving DecidableEq, Repr

/-- The substring each branch of `handle_command` tests with `in`. -/
def opcodeSubstring : Opcode → String
  | .trigger => "optogrid.trigger"
  | .scan => "optogrid.scan"
  | .status => "optogrid.status"
  | .connect => "optogrid.connect"
  | .gattread => "optogrid.gattread"
  | .enableIMU => "optogrid.enableIMU"
  | .disableIMU => "optogrid.disableIMU"
  | .startIMULog => "optogrid.startIMULog"
  | .stopIMULog => "optogrid.stopIMULog"
  | .readbattery => "optogrid.readbattery"
  | .readuLEDCheck => "optogrid.readuLEDCheck"
  | .readlastStim => "optogrid.readlastStim"
  | .sync => "optogrid.sync"
  | .toggleStatusLED => "optogrid.toggleStatusLED"
  | .toggleShamLED => "optogrid.toggleShamLED"
  | .program => "optogrid.program"

/-- Which branch of the source's `if/elif` chain fires for a message, in
the source's textual order (trigger, scan, status, connect, gattread,
enableIMU, disableIMU, startIMULog, stopIMULog, readbattery,
readuLEDCheck, readlastStim, the duplicate — hence dead — gattread test,
sync, toggleStatusLED, toggleShamLED, program); `none` is the final
`Unknown command` return. -/
def executedOpcode (msg : String) : Option Opcode :=
  if strContains msg "optogrid.trigger" then some .trigger
  else if strContains msg "optogrid.scan" then some .scan
  else if strContains msg "optogrid.status" then some .status
  else if strContains msg "optogrid.connect" then some .connect
  else if strContains msg "optogrid.gattread" then some .gattread
  else if strContains msg "optogrid.enableIMU" then some .enableIMU
  else if strContains msg "optogrid.disableIMU" then some .disableIMU
  else if strContains msg "optogrid.startIMULog" then some .startIMULog
  else if strContains msg "optogrid.stopIMULog" then some .stopIMULog
  else if strContains msg "optogrid.readbattery" then some .readbattery
  else if strContains msg "optogrid.readuLEDCheck" then some .readuLEDCheck
  else if strContains msg "optogrid.readlastStim" then some .readlastStim
  else if strContains msg "optogrid.gattread" then some .gattread
  else if strContains msg "optogrid.sync" then some .sync
  else if strContains msg "optogrid.toggleStatusLED" then some .toggleStatusLED
  else if strContains msg "optogrid.toggleShamLED" then some .toggleShamLED
  else if strContains msg "optogrid.program" then some .program
  else none

/-- The branch order of the source, as a list (the dead duplicate
`gattread` entry collapsed into the first occurrence). -/
def codePrecedence : List Opcode :=
  [.trigger, .scan, .status, .connect, .gattread, .enableIMU, .disableIMU,
   .startIMULog, .stopIMULog, .readbattery, .readuLEDCheck, .readlastStim,
   .sync, .toggleStatusLED, .toggleShamLED, .program]

/-- Modelled from the spec's words: the precedence list the claim states
(connect, trigger, scan, status, gattread, enableIMU/startIMULog,
disableIMU/stopIMULog, readbattery, readULEDCheck, readlastStim, sync,
toggleStatusLED, toggleShamLED, program). -/
def specPrecedence : List Opcode :=
  [.connect, .trigger, .scan, .status, .gattread, .enableIMU, .startIMULog,
   .disableIMU, .stopIMULog, .readbattery, .readuLEDCheck, .readlastStim,
   .sync, .toggleStatusLED, .toggleShamLED, .program]

/-- Modelled from the spec's words: the opcode the claim says is executed,
i.e. the first match in `specPrecedence`. -/
def specClaimedOpcode (msg : String) : Option Opcode :=
  specPrecedence.find? (fun op => strContains msg (opcodeSubstring op))

/-- Python `message.split('=')[1].strip()` as an `Option`: `none` is the
`IndexError` raised when the message has no `'='`. -/
def splitEqArg (msg : String) : Option String :=
  match splitOnChar '=' msg.data with
  | _ :: arg :: _ => some (String.mk (stripChars arg))
  | _ => none

/-- Replies of the device-touching actions, abstracted: each field is the
string returned by the corresponding coroutine of the source (those
coroutines catch their own exceptions and always return a string).  The
last three fields model the text of dynamic Python exception messages
(`int(...)` failures, tuple-unpack failures, `eval` failures) whose exact
wording the claims do not depend on. -/
structure DispatchEnv where
  triggerReply : String
  scanReply : String
  statusReply : String
  connectReply : String → String
  gattAllReply : String
  gattOneReply : String → String
  enableReply : String → String → String
  disableReply : String
  batteryReply : String
  uledReply : String
  lastStimReply : String
  syncReply : Int → String
  toggleStatusReply : Int → String
  toggleShamReply : Int → String
  programReply : String → String
  programParseOk : String → Bool
  evalErr : String → String
  intErr : String → String
  unpackErr : Nat → String

/-- The dispatcher for one accepted request: the list of strings sent on
the reply socket, in order.  `msg` is the received request and `next` the
following message (read only by the two-phase `program` branch).  Branch
selection is `executedOpcode` (the source's `if/elif` chain); each branch
mirrors the corresponding body, with the `try/except` blocks of the source
turned into the `ERROR: ...` replies they produce.  The final reply of
every non-`program` branch is sent by the `run` loop; the `program` branch
additionally sends `"Ready for program data"` itself before reading
`next`.  The function is total: no exception escapes the dispatch loop. -/
def handle_command (env : DispatchEnv) (msg next : String) : List String :=
  match executedOpcode msg with
  | some .trigger => [env.triggerReply]
  | some .scan => [env.scanReply]
  | some .status => [env.statusReply]
  | some .connect =>
    match splitEqArg msg with
    | some name => [env.connectReply name]
    | none => ["ERROR: list index out of range"]
  | some .gattread =>
    if strContains msg "=" then [env.gattOneReply ((splitEqArg msg).getD "")]
    else [env.gattAllReply]
  | some .enableIMU => [env.enableReply "NoSubjID" "NoSessID"]
  | some .disableIMU => [env.disableReply]
  | some .startIMULog =>
    match splitEqArg msg with
    | none => ["ERROR: Invalid startIMULog parameters: list index out of range"]
    | some params =>
      match (splitOnChar ',' params.data).map (fun p => String.mk (stripChars p)) with
      | [a, b] => [env.enableReply a b]
      | l => ["ERROR: Invalid startIMULog parameters: " ++ env.unpackErr l.length]
  | some .stopIMULog => [env.disableReply]
  | some .readbattery => [env.batteryReply]
  | some .readuLEDCheck => [env.uledReply]
  | some .readlastStim => [env.lastStimReply]
  | some .sync =>
    match splitEqArg msg with
    | none => ["ERROR: list index out of range"]
    | some a =>
      match pyInt a with
      | some n => [env.syncReply n]
      | none => ["ERROR: " ++ env.intErr a]
  | some .toggleStatusLED =>
    match splitEqArg msg with
    | none => ["ERROR: Invalid value for toggleStatusLED: list index out of range"]
    | some a =>
      match pyInt a with
      | some n => [env.toggleStatusReply n]
      | none => ["ERROR: Invalid value for toggleStatusLED: " ++ env.intErr a]
  | some .toggleShamLED =>
    match splitEqArg msg with
    | none => ["ERROR: Invalid value for toggleShamLED: list index out of range"]
    | some a =>
      match pyInt a with
      | some n => [env.toggleShamReply n]
      | none => ["ERROR: Invalid value for toggleShamLED: " ++ env.intErr a]
  | some .program =>
    ["Ready for program data",
     if env.programParseOk next then env.programReply next else "ERROR: " ++ env.evalErr next]
  | none => ["Unknown command: " ++ msg]

/-- A concrete environment for exercising the dispatcher on closed inputs:
every device action replies with a fixed tag string. -/
def sampleEnv : DispatchEnv :=
  { triggerReply := "Opto Triggered",
    scanReply := "scan",
    statusReply := "Disconnected",
    connectReply := fun n => n ++ " Connected",
    gattAllReply := "gatt",
    gattOneReply := fun u => "gatt " ++ u,
    enableReply := fun _ _ => "IMU enabled, and logging started",
    disableReply := "IMU disabled, and logging stopped",
    batteryReply := "bat",
    uledReply := "uled",
    lastStimReply := "stim",
    syncReply := fun _ => "Sync Written",
    toggleStatusReply := fun _ => "Status LED turned on",
    toggleShamReply := fun _ => "Sham LED turned on",
    programReply := fun _ => "Opto Programmed",
    programParseOk := fun _ => true,
    evalErr := fun _ => "eval failed",
    intErr := fun s => "invalid literal for int() with base 10: " ++ s,
    unpackErr := fun _ => "values to unpack" }

/-! ## Telemetry rows and session-scoped buffered logging
(`handle_imu_data_notification`'s buffering, `flush_imu_buffer`,
`start_IMU_logging`, `stop_IMU_logging`, `handle_sync`) -/

/-- One buffered telemetry row.  The source stores a plain list in the
order of `imu_data_columns` (sample, acc_x..z, gyro_x..z, mag_x..z, sync,
roll, pitch, yaw, uncertainty, bat_v); here each position is a named
field, with the source's index `10` being `sync`. -/
structure TelemetryRow where
  sample : Int
  acc_x : Int
  acc_y : Int
  acc_z : Int
  gyro_x : Int
  gyro_y : Int
  gyro_z : Int
  mag_x : Int
  mag_y : Int
  mag_z : Int
  sync : Int
  roll : ℚ
  pitch : ℚ
  yaw : ℚ
  uncertainty : Option ℚ
  bat_v : Option ℚ
deriving DecidableEq, Repr

/-- The row the notification handler builds: `imu_values + [0]` followed by
the smoothed angles, the uncertainty and the battery cache — the sync
field of a newly appended row is the literal `0`. -/
def mkImuRow (s a1 a2 a3 g1 g2 g3 m1 m2 m3 : Int) (roll pitch yaw : ℚ)
    (unc bat : Option ℚ) : TelemetryRow :=
  { sample := s, acc_x := a1, acc_y := a2, acc_z := a3,
    gyro_x := g1, gyro_y := g2, gyro_z := g3,
    mag_x := m1, mag_y := m2, mag_z := m3, sync := 0,
    roll := roll, pitch := pitch, yaw := yaw,
    uncertainty := unc, bat_v := bat }

/-- Logging state: the in-memory buffer (`imu_data_buffer`), the rows
already written to the parquet file, the sizes of the flushes performed,
whether the parquet writer is open (`parquet_writer is not None`) and
whether logging is active (`imu_logging_active`). -/
structure LogState where
  buffer : List TelemetryRow
  written : List TelemetryRow
  flushes : List Nat
  writerOpen : Bool
  loggingActive : Bool
deriving DecidableEq, Repr

/-- `flush_imu_buffer`: a no-op on an empty buffer, otherwise writes the
whole buffer through the writer (when one is open) and clears it. -/
def flush_imu_buffer (s : LogState) : LogState :=
  if s.buffer.isEmpty then s
  else
    { s with
      buffer := [],
      written := s.written ++ (if s.writerOpen then s.buffer else []),
      flushes := s.flushes ++ [s.buffer.length] }

/-- The buffering step of `handle_imu_data_notification`: append the row,
then flush as soon as the buffer holds at least 100 rows. -/
def appendRow (s : LogState) (r : TelemetryRow) : LogState :=
  let s' := { s with buffer := s.buffer ++ [r] }
  if 100 ≤ s'.buffer.length then flush_imu_buffer s' else s'

/-- `start_IMU_logging`, reduced to its state effect: a warning no-op when
already active, otherwise a fresh open writer and active session. -/
def start_IMU_logging (s : LogState) : LogState :=
  if s.loggingActive then s
  else { s with writerOpen := true, loggingActive := true }

/-- `stop_IMU_logging`: a warning no-op when no logging is active;
otherwise flush any remaining buffer, then close the writer and reset the
active flag. -/
def stop_IMU_logging (s : LogState) : LogState :=
  if ¬ s.loggingActive then s
  else
    let s' := if ¬ s.buffer.isEmpty then flush_imu_buffer s else s
    { s' with writerOpen := false, loggingActive := false }

/-- Overwrite the sync field of the last element of a row list
(`self.imu_data_buffer[-1][10] = sync_value`). -/
def setLastSync (v : Int) : List TelemetryRow → List TelemetryRow
  | [] => []
  | [r] => [{ r with sync := v }]
  | r :: r' :: rs => r :: setLastSync v (r' :: rs)

/-- `handle_sync`: update the most recent buffered row's sync field and
reply `"Sync Written"`, or report the empty buffer. -/
def handle_sync (v : Int) (s : LogState) : LogState × String :=
  if s.buffer.isEmpty then (s, "No IMU data buffer available")
  else ({ s with buffer := setLastSync v s.buffer }, "Sync Written")

/-! ## Orientation pipeline (`process_imu_orientation`) -/

/-- Coordinate triple over exact rationals (a `numpy` length-3 array of
the source). -/
structure V3 where
  x : ℚ
  y : ℚ
  z : ℚ
deriving DecidableEq, Repr

/-- Componentwise subtraction. -/
def vsub (a b : V3) : V3 := ⟨a.x - b.x, a.y - b.y, a.z - b.z⟩

/-- Componentwise (Hadamard) product, `numpy`'s `*` on arrays. -/
def vmul (a b : V3) : V3 := ⟨a.x * b.x, a.y * b.y, a.z * b.z⟩

/-- Scalar multiple. -/
def vscale (c : ℚ) (a : V3) : V3 := ⟨c * a.x, c * a.y, c * a.z⟩

/-- Squared euclidean norm; `np.linalg.norm(v) > c` with `c ≥ 0` is encoded
as `normSq v > c²`. -/
def normSq (a : V3) : ℚ := a.x * a.x + a.y * a.y + a.z * a.z

/-- Magnetometer calibration parameters held by the client
(`self.mag_offset`, `self.mag_scale`). -/
structure OrientCfg where
  mag_offset : V3
  mag_scale : V3
deriving DecidableEq, Repr

/-- The calibrated, unit-converted magnetometer sample in gauss:
`(mag_raw - offset) * scale * (100.0 / 65536.0)`. -/
def magConv (cfg : OrientCfg) (magRaw : V3) : V3 :=
  vscale (100 / 65536) (vmul (vsub magRaw cfg.mag_offset) cfg.mag_scale)

/-- The source's magnetometer validity test: `norm(mag) > 0.01` and not
`norm(mag - last_mag) > 2.0`, with both norm comparisons encoded on
squares. -/
def magValid (last mag : V3) : Prop :=
  (1 : ℚ) / 10000 < normSq mag ∧ ¬ (4 < normSq (vsub mag last))

instance (last mag : V3) : Decidable (magValid last mag) := by
  unfold magValid; infer_instance

/-- The accelerometer axis remap `[acc[0], -acc[1], -acc[2]]` of the
"Transform to device frame" step. -/
def accRemap (a : V3) : V3 := ⟨a.x, -a.y, -a.z⟩

/-- Gyro noise gating: `np.where(np.abs(g) < 5, 0, g)` on one component. -/
def gyroDead (v : ℚ) : ℚ := if |v| < 5 then 0 else v

/-- The arguments of the `fusion_filter.update(...)` call built by
`process_imu_orientation`.  `gyr` is the deadzoned world-frame gyro in
deg/s: both branches of the source then apply the same `np.radians`
conversion (an irrational factor π/180 external to the claims), so it is
recorded before that conversion.  `acc` is the exact m/s² value passed;
`mag` is the µT value, `none` on the 6-DOF fallback branch. -/
structure FusionCall where
  gyr : V3
  acc : V3
  mag : Option V3
deriving DecidableEq, Repr

/-- The unit-conversion, remap, gyro-gating, magnetometer-validation and
filter-input selection of `process_imu_orientation` (source lines 747 to
802): returns the fusion call made and the new `last_mag` (which the
source assigns from `mag.copy()` on every update, accepted or not). -/
def processFusionCall (cfg : OrientCfg) (last_mag : V3) (accRaw gyrRaw magRaw : V3) :
    FusionCall × V3 :=
  let mag := magConv cfg magRaw
  let acc := vscale (32 / 65536) accRaw
  let gyr := vscale (4000 / 65536) gyrRaw
  let acc_world := accRemap acc
  let gyr_world : V3 := ⟨gyr.x, -gyr.y, -gyr.z⟩
  let mag_world : V3 := ⟨mag.y, -mag.x, -mag.z⟩
  let gyr_world : V3 := ⟨gyroDead gyr_world.x, gyroDead gyr_world.y, gyroDead gyr_world.z⟩
  if magValid last_mag mag then
    (⟨gyr_world, vscale (980665 / 100000) acc_world, some (vscale 100 mag_world)⟩, mag)
  else
    (⟨gyr_world, vscale (980665 / 100000) acc, none⟩, mag)

/-! ## Euler wrap and yaw-safe smoothing (source lines 804 to 826) -/

/-- Python's float `%` with positive modulus: `a - b * floor(a / b)`,
always in `[0, b)` for `b > 0`. -/
def pmod (a b : ℚ) : ℚ := a - b * ⌊a / b⌋

/-- The source's roll/pitch smoothing coefficient (`alpha_rp = 1`). -/
def alpha_rp : ℚ := 1

/-- The source's yaw smoothing coefficient (`alpha_yaw = 1`). -/
def alpha_yaw : ℚ := 1

/-- `yaw = (yaw + 360) % 360`: wrap the Euler yaw into `[0, 360)`. -/
def wrapYaw (yaw : ℚ) : ℚ := pmod (yaw + 360) 360

/-- `delta_yaw = ((yaw - last_yaw + 180) % 360) - 180`: the shortest
angular delta. -/
def deltaYaw (prev yaw : ℚ) : ℚ := pmod (yaw - prev + 180) 360 - 180

/-- Smoothing state: the previous smoothed angles (`last_roll`,
`last_pitch`, `last_yaw`; `none` before the first sample). -/
structure SmoothState where
  last_roll : ℚ
  last_pitch : ℚ
  last_yaw : ℚ
deriving DecidableEq, Repr

/-- The wrap-and-smooth tail of `process_imu_orientation`: takes the Euler
angles produced by `q2euler` (in degrees) and the previous smoothing
state, returns the smoothed angles and the new state. -/
def smoothAngles (st : Option SmoothState) (roll pitch rawYaw : ℚ) :
    (ℚ × ℚ × ℚ) × SmoothState :=
  let yaw := wrapYaw rawYaw
  match st with
  | none => ((roll, pitch, yaw), ⟨roll, pitch, yaw⟩)
  | some s =>
    let smooth_roll := alpha_rp * roll + (1 - alpha_rp) * s.last_roll
    let smooth_pitch := alpha_rp * pitch + (1 - alpha_rp) * s.last_pitch
    let d := deltaYaw s.last_yaw yaw
    let smooth_yaw := pmod (s.last_yaw + alpha_yaw * d + 360) 360
    ((smooth_roll, smooth_pitch, smooth_yaw), ⟨smooth_roll, smooth_pitch, smooth_yaw⟩)

/-! ## The IMU notification handler (`handle_imu_data_notification`) -/

/-- The parse step `[int(x.strip()) for x in imu_values_str.split(",")]`:
`none` models the `ValueError` raised (and caught by the handler's
`except`, which skips the message) when any field is not an integer. -/
def parseImuValues (s : String) : Option (List Int) :=
  (splitOnChar ',' s.data).mapM (fun p => pyIntChars p)

/-- Client state touched by the IMU notification handler.  `O` is the type
of the opaque orientation state (fusion-filter matrices, quaternion and
smoothing state, all mutated only through the orientation oracle). -/
structure ImuClientState (O : Type) where
  imu_counter : Nat
  imu_enable_state : Bool
  log : LogState
  orient : O
  battery : Option ℚ

/-- `handle_imu_data_notification`, parameterised by the orientation
oracle `orientFn` (the `process_imu_orientation` call: values in, smoothed
roll/pitch/yaw and new orientation state out) and `uncFn` (the
`np.trace(self.fusion_filter.P)` read).  A payload whose decode-and-parse
fails raises before `imu_counter += 1`, is caught by the handler's
`except`, and leaves the whole state unchanged; on success the counter is
incremented, orientation is processed, and — when `imu_enable_state` is
set — a row with sync `0` and the consumed battery cache is buffered with
the threshold-100 flush.  The function is total: no exception escapes the
handler. -/
def handle_imu_data_notification {O : Type}
    (orientFn : List Int → O → (ℚ × ℚ × ℚ) × O) (uncFn : O → Option ℚ)
    (st : ImuClientState O) (data : List Nat) : ImuClientState O :=
  match parseImuValues (decode_value imuDataUuid data) with
  | none => st
  | some vals =>
    match vals with
    | [s, a1, a2, a3, g1, g2, g3, m1, m2, m3] =>
      let st1 := { st with imu_counter := st.imu_counter + 1 }
      let pr := orientFn vals st1.orient
      let st2 := { st1 with orient := pr.2 }
      if st2.imu_enable_state then
        let row := mkImuRow s a1 a2 a3 g1 g2 g3 m1 m2 m3
          pr.1.1 pr.1.2.1 pr.1.2.2 (uncFn pr.2) st2.battery
        { st2 with battery := none, log := appendRow st2.log row }
      else st2
    | _ => { st with imu_counter := st.imu_counter + 1 }

/-! ## Magnetometer calibration (`load_magnetometer_calibration`,
`setup_imu_processing`) -/

/-- `np.max` over a nonempty batch, head plus tail. -/
def foldMax (x : ℚ) (xs : List ℚ) : ℚ := xs.foldl max x

/-- `np.min` over a nonempty batch. -/
def foldMin (x : ℚ) (xs : List ℚ) : ℚ := xs.foldl min x

/-- `(np.max(d) + np.min(d)) / 2`: the hard-iron offset of one axis. -/
def axisOffset (x : ℚ) (xs : List ℚ) : ℚ := (foldMax x xs + foldMin x xs) / 2

/-- `np.max(d) - np.min(d)`: the range of one axis. -/
def axisRange (x : ℚ) (xs : List ℚ) : ℚ := foldMax x xs - foldMin x xs

/-- The calibration defaults established by `setup_imu_processing`:
`mag_offset = [0,0,0]`, `mag_scale = [1,1,1]` (identity calibration). -/
def setupCalibration : OrientCfg := ⟨⟨0, 0, 0⟩, ⟨1, 1, 1⟩⟩

/-- `load_magnetometer_calibration`, reduced to its state effect on
`(mag_offset, mag_scale)`.  The input is `none` when the per-device CSV is
missing or lacks the `mag_x`/`mag_y`/`mag_z` columns (the early
`return False` paths), otherwise the three column value lists.  An empty
column makes `np.max` raise before any assignment to `self`, so the state
is also left unchanged then (the columns of one CSV always have equal
length, so one empty column means all three are).  Offsets are the axis
midpoints; scales are `avg_range / range` guarded by `range > 0`. -/
def load_magnetometer_calibration (cal : Option (List ℚ × List ℚ × List ℚ))
    (st : OrientCfg) : OrientCfg :=
  match cal with
  | none => st
  | some (xs, ys, zs) =>
    match xs, ys, zs with
    | x :: xs', y :: ys', z :: zs' =>
      let rx := axisRange x xs'
      let ry := axisRange y ys'
      let rz := axisRange z zs'
      let avg_range := (rx + ry + rz) / 3
      { mag_offset := ⟨axisOffset x xs', axisOffset y ys', axisOffset z zs'⟩,
        mag_scale := ⟨if 0 < rx then avg_range / rx else 1,
                      if 0 < ry then avg_range / ry else 1,
                      if 0 < rz then avg_range / rz else 1⟩ }
    | _, _, _ => st

/-! ## Helper lemmas -/

theorem pmod_eq_mul_fract (a b : ℚ) (hb : b ≠ 0) : pmod a b = b * Int.fract (a / b) := by
  unfold pmod Int.fract
  field_simp

theorem pmod_nonneg (a : ℚ) {b : ℚ} (hb : 0 < b) : 0 ≤ pmod a b := by
  rw [pmod_eq_mul_fract a b hb.ne']
  exact mul_nonneg hb.le (Int.fract_nonneg _)

theorem pmod_lt (a : ℚ) {b : ℚ} (hb : 0 < b) : pmod a b < b := by
  rw [pmod_eq_mul_fract a b hb.ne']
  calc b * Int.fract (a / b) < b * 1 :=
        mul_lt_mul_of_pos_left (Int.fract_lt_one _) hb
    _ = b := mul_one b

theorem pmod_add_right (a b : ℚ) (hb : b ≠ 0) : pmod (a + b) b = pmod a b := by
  unfold pmod
  rw [add_div, div_self hb, Int.floor_add_one]
  push_cast
  ring

theorem pmod_of_floor {a b : ℚ} {k : ℤ} (hk : ⌊a / b⌋ = k) : pmod a b = a - b * k := by
  rw [pmod, hk]

/-! ## Claim theorems -/

/-- Claim C3: after quaternion-to-Euler conversion the yaw is wrapped into
`[0, 360)`; smoothing uses the shortest angular delta
`((yaw - prev + 180) mod 360) - 180` (always in `[-180, 180)`), and the
smoothed yaw equals `(prev + alpha * delta) mod 360`; for `prev = 359` and
raw yaw `2` the applied delta is `+3` — forward through the 360/0 seam,
not backward through 180 — and the smoothed yaw is `2`. -/
theorem claim_C3_yaw_wrap_and_smooth :
    (∀ y : ℚ, 0 ≤ wrapYaw y ∧ wrapYaw y < 360)
    ∧ (∀ (s : SmoothState) (roll pitch rawYaw : ℚ),
        (smoothAngles (some s) roll pitch rawYaw).1.2.2 =
          pmod (s.last_yaw + alpha_yaw * deltaYaw s.last_yaw (wrapYaw rawYaw)) 360)
    ∧ (∀ prev yaw : ℚ, -180 ≤ deltaYaw prev yaw ∧ deltaYaw prev yaw < 180)
    ∧ deltaYaw 359 (wrapYaw 2) = 3
    ∧ (smoothAngles (some ⟨0, 0, 359⟩) 0 0 2).1.2.2 = 2 := by
  have e1 : wrapYaw 2 = 2 := by
    have h : ⌊((2 : ℚ) + 360) / 360⌋ = 1 := Int.floor_eq_iff.mpr (by norm_num)
    rw [wrapYaw, pmod_of_floor h]; norm_num
  have e2 : deltaYaw 359 2 = 3 := by
    have h : ⌊((2 : ℚ) - 359 + 180) / 360⌋ = -1 := Int.floor_eq_iff.mpr (by norm_num)
    rw [deltaYaw, pmod_of_floor h]; norm_num
  refine ⟨?_, ?_, ?_, ?_, ?_⟩
  · intro y
    exact ⟨pmod_nonneg _ (by norm_num), pmod_lt _ (by norm_num)⟩
  · intro s roll pitch rawYaw
    simp only [smoothAngles]
    exact pmod_add_right _ _ (by norm_num)
  · intro prev yaw
    unfold deltaYaw
    constructor
    · have := pmod_nonneg (yaw - prev + 180) (show (0 : ℚ) < 360 by norm_num)
      linarith
    · have := pmod_lt (yaw - prev + 180) (show (0 : ℚ) < 360 by norm_num)
      linarith
  · rw [e1]; exact e2
  · simp only [smoothAngles]
    rw [e1, e2]
    have h : ⌊((359 : ℚ) + alpha_yaw * 3 + 360) / 360⌋ = 2 :=
      Int.floor_eq_iff.mpr (by norm_num [alpha_yaw])
    rw [pmod_of_floor h]; norm_num [alpha_yaw]

/-- Claim C4 counterexample: the claim says only accepted samples are
stored as the reference.  On the code, starting from the calibration
defaults and reference `(0,0,0)`, the raw sample `(328,0,0)` (0.5004 gauss
after conversion) is accepted and stored; the next raw sample `(1966,0,0)`
(2.9999 gauss, a jump of 2.4994 > 2.0) is rejected — its fusion call
carries no magnetometer — yet the stored reference becomes that rejected
sample, not the last accepted one.  Moreover at exactly 0.01 gauss (raw
`(1,0,0)` under scale `4096/625`, unchanged from the reference) the code
rejects although `‖mag‖ < 0.01` is false and `‖Δmag‖ > 2.0` is false, so
the claim's "rejected iff" also fails on the boundary. -/
theorem claim_C4_counterexample :
    (processFusionCall ⟨⟨0, 0, 0⟩, ⟨1, 1, 1⟩⟩ ⟨0, 0, 0⟩ ⟨0, 0, 0⟩ ⟨0, 0, 0⟩
        ⟨328, 0, 0⟩).1.mag.isSome = true
    ∧ (processFusionCall ⟨⟨0, 0, 0⟩, ⟨1, 1, 1⟩⟩ ⟨0, 0, 0⟩ ⟨0, 0, 0⟩ ⟨0, 0, 0⟩
        ⟨328, 0, 0⟩).2 = ⟨1025 / 2048, 0, 0⟩
    ∧ (processFusionCall ⟨⟨0, 0, 0⟩, ⟨1, 1, 1⟩⟩ ⟨1025 / 2048, 0, 0⟩ ⟨0, 0, 0⟩ ⟨0, 0, 0⟩
        ⟨1966, 0, 0⟩).1.mag = none
    ∧ (processFusionCall ⟨⟨0, 0, 0⟩, ⟨1, 1, 1⟩⟩ ⟨1025 / 2048, 0, 0⟩ ⟨0, 0, 0⟩ ⟨0, 0, 0⟩
        ⟨1966, 0, 0⟩).2 = ⟨24575 / 8192, 0, 0⟩
    ∧ ((⟨24575 / 8192, 0, 0⟩ : V3) ≠ ⟨1025 / 2048, 0, 0⟩)
    ∧ (processFusionCall ⟨⟨0, 0, 0⟩, ⟨4096 / 625, 1, 1⟩⟩ ⟨1 / 100, 0, 0⟩ ⟨0, 0, 0⟩ ⟨0, 0, 0⟩
        ⟨1, 0, 0⟩).1.mag = none
    ∧ ¬ (normSq ⟨1 / 100, 0, 0⟩ < 1 / 10000)
    ∧ ¬ ((4 : ℚ) < normSq (vsub ⟨1 / 100, 0, 0⟩ ⟨1 / 100, 0, 0⟩)) := by
  have hv1 : magValid ⟨0, 0, 0⟩ (magConv ⟨⟨0, 0, 0⟩, ⟨1, 1, 1⟩⟩ ⟨328, 0, 0⟩) := by
    constructor
    · norm_num [magConv, vmul, vsub, vscale, normSq]
    · norm_num [magConv, vmul, vsub, vscale, normSq]
  have hv2 : ¬ magValid ⟨1025 / 2048, 0, 0⟩
      (magConv ⟨⟨0, 0, 0⟩, ⟨1, 1, 1⟩⟩ ⟨1966, 0, 0⟩) := by
    intro h
    exact h.2 (by norm_num [magConv, vmul, vsub, vscale, normSq])
  have hv3 : ¬ magValid ⟨1 / 100, 0, 0⟩
      (magConv ⟨⟨0, 0, 0⟩, ⟨4096 / 625, 1, 1⟩⟩ ⟨1, 0, 0⟩) := by
    intro h
    have h1 := h.1
    norm_num [magConv, vmul, vsub, vscale, normSq] at h1
  refine ⟨?_, ?_, ?_, ?_, ?_, ?_, ?_, ?_⟩
  · simp [processFusionCall, if_pos hv1]
  · simp only [processFusionCall, if_pos hv1]
    norm_num [magConv, vmul, vsub, vscale, V3.mk.injEq]
  · simp [processFusionCall, if_neg hv2]
  · simp only [processFusionCall, if_neg hv2]
    norm_num [magConv, vmul, vsub, vscale, V3.mk.injEq]
  · intro h
    rw [V3.mk.injEq] at h
    norm_num at h
  · simp only [processFusionCall, if_neg hv3]
  · norm_num [normSq]
  · norm_num [normSq, vsub]

/-- Claim C4 amended: a magnetometer sample is rejected iff its converted
value `mag` fails `‖mag‖ > 0.01` or jumps by more than 2.0 gauss from the
previously *processed* sample — the reference `last_mag` is overwritten by
every sample, accepted or rejected — and a rejected sample makes the
fusion call magnetometer-free (6-DOF) for that single update, with
magnetometer fusion resuming on the next sample that is valid relative to
its immediate predecessor. -/
theorem claim_C4_amended :
    ∀ (cfg : OrientCfg) (last accRaw gyrRaw magRaw : V3),
    ((processFusionCall cfg last accRaw gyrRaw magRaw).1.mag.isSome = true ↔
      (1 : ℚ) / 10000 < normSq (magConv cfg magRaw) ∧
        ¬ (4 < normSq (vsub (magConv cfg magRaw) last)))
    ∧ (processFusionCall cfg last accRaw gyrRaw magRaw).2 = magConv cfg magRaw := by
  intro cfg last a g m
  by_cases h : magValid last (magConv cfg m)
  · simp only [processFusionCall, if_pos h]
    constructor
    · simp only [Option.isSome_some, true_iff]
      exact ⟨h.1, h.2⟩
    · trivial
  · simp only [processFusionCall, if_neg h]
    constructor
    · simp only [Option.isSome_none, Bool.false_eq_true, false_iff]
      intro hc
      exact h ⟨hc.1, hc.2⟩
    · trivial

/-- Claim C4 amended, witnessed at a concrete accepted sample: the raw
magnetometer `(328,0,0)` from reference `(0,0,0)` is accepted and becomes
the new reference. -/
theorem claim_C4_amended_witness :
    (processFusionCall ⟨⟨0, 0, 0⟩, ⟨1, 1, 1⟩⟩ ⟨0, 0, 0⟩ ⟨0, 0, 0⟩ ⟨0, 0, 0⟩
        ⟨328, 0, 0⟩).1.mag.isSome = true
    ∧ (processFusionCall ⟨⟨0, 0, 0⟩, ⟨1, 1, 1⟩⟩ ⟨0, 0, 0⟩ ⟨0, 0, 0⟩ ⟨0, 0, 0⟩
        ⟨328, 0, 0⟩).2 = magConv ⟨⟨0, 0, 0⟩, ⟨1, 1, 1⟩⟩ ⟨328, 0, 0⟩ := by
  have h := claim_C4_amended ⟨⟨0, 0, 0⟩, ⟨1, 1, 1⟩⟩ ⟨0, 0, 0⟩ ⟨0, 0, 0⟩ ⟨0, 0, 0⟩ ⟨328, 0, 0⟩
  refine ⟨h.1.mpr ⟨?_, ?_⟩, h.2⟩
  · norm_num [magConv, vmul, vsub, vscale, normSq]
  · norm_num [magConv, vmul, vsub, vscale, normSq]

/-- Claim C10: when the magnetometer is rejected, the accelerometer passed
to the fusion filter is the unit-converted raw vector without the axis
remap, while an accepted magnetometer makes the filter receive the
remapped vector; the two reference frames differ (the remap negates the y
and z axes). -/
theorem claim_C10_acc_frame :
    ∀ (cfg : OrientCfg) (last accRaw gyrRaw magRaw : V3),
    ((processFusionCall cfg last accRaw gyrRaw magRaw).1.mag = none →
      (processFusionCall cfg last accRaw gyrRaw magRaw).1.acc =
        vscale (980665 / 100000) (vscale (32 / 65536) accRaw))
    ∧ (∀ v : V3, (processFusionCall cfg last accRaw gyrRaw magRaw).1.mag = some v →
      (processFusionCall cfg last accRaw gyrRaw magRaw).1.acc =
        vscale (980665 / 100000) (accRemap (vscale (32 / 65536) accRaw)))
    ∧ accRemap (vscale (32 / 65536) ⟨0, 1, 0⟩) ≠ vscale (32 / 65536) (⟨0, 1, 0⟩ : V3) := by
  intro cfg last a g m
  refine ⟨?_, ?_, ?_⟩
  · by_cases h : magValid last (magConv cfg m)
    · simp [processFusionCall, if_pos h]
    · simp [processFusionCall, if_neg h]
  · intro v
    by_cases h : magValid last (magConv cfg m)
    · simp [processFusionCall, if_pos h]
    · simp [processFusionCall, if_neg h]
  · intro h
    rw [accRemap, vscale, V3.mk.injEq] at h
    norm_num at h

/-- Claim C10, witnessed: with an all-zero magnetometer the sample is
rejected and the filter receives the plain converted accelerometer
`(5,6,7) * 32/65536 * 9.80665`, without the remap. -/
theorem claim_C10_witness :
    (processFusionCall ⟨⟨0, 0, 0⟩, ⟨1, 1, 1⟩⟩ ⟨0, 0, 0⟩ ⟨5, 6, 7⟩ ⟨0, 0, 0⟩
        ⟨0, 0, 0⟩).1.acc = vscale (980665 / 100000) (vscale (32 / 65536) ⟨5, 6, 7⟩) := by
  apply (claim_C10_acc_frame ⟨⟨0, 0, 0⟩, ⟨1, 1, 1⟩⟩ ⟨0, 0, 0⟩ ⟨5, 6, 7⟩ ⟨0, 0, 0⟩ ⟨0, 0, 0⟩).1
  have h : ¬ magValid ⟨0, 0, 0⟩ (magConv ⟨⟨0, 0, 0⟩, ⟨1, 1, 1⟩⟩ ⟨0, 0, 0⟩) := by
    intro h
    have h1 := h.1
    norm_num [magConv, vmul, vsub, vscale, normSq] at h1
  simp [processFusionCall, if_neg h]

/-- Claim C2 counterexample: for the `string` characteristic type the
decode side strips trailing NUL characters, so a string value with
trailing NUL padding does not round-trip unchanged:
`decode(encode("OG1\x00")) = "OG1" ≠ "OG1\x00"` on the Device ID
characteristic. -/
theorem claim_C2_counterexample :
    (encode_value "56781500-5678-1234-1234-5678abcdeff0" "OG1\x00").map
      (decode_value "56781500-5678-1234-1234-5678abcdeff0") = some "OG1"
    ∧ ("OG1" : String) ≠ "OG1\x00" := by
  constructor
  · decide
  · decide

/-- Claim C2 amended: `decode(uuid, encode(uuid, v)) = v` at the
representative boundary values of the integer and boolean tags — uint8 `0`
and `255`, uint16 `0` and `65535`, uint32 `0` and `4294967295`, uint64
maximum `18446744073709551615`, bool `True` and `False` — and for NUL-free
strings; for a string with trailing NUL padding the round trip returns the
value with the padding stripped; the composite IMU tag has no encoder
branch (`encode_value` falls back to raw-hex parsing), so encoding a
decoded composite value fails. -/
theorem claim_C2_amended :
    ((encode_value "56781600-5678-1234-1234-5678abcdeff0" "0").map
      (decode_value "56781600-5678-1234-1234-5678abcdeff0") = some "0")
    ∧ ((encode_value "56781600-5678-1234-1234-5678abcdeff0" "255").map
      (decode_value "56781600-5678-1234-1234-5678abcdeff0") = some "255")
    ∧ ((encode_value "56781506-5678-1234-1234-5678abcdeff0" "0").map
      (decode_value "56781506-5678-1234-1234-5678abcdeff0") = some "0")
    ∧ ((encode_value "56781506-5678-1234-1234-5678abcdeff0" "65535").map
      (decode_value "56781506-5678-1234-1234-5678abcdeff0") = some "65535")
    ∧ ((encode_value "5678150a-5678-1234-1234-5678abcdeff0" "0").map
      (decode_value "5678150a-5678-1234-1234-5678abcdeff0") = some "0")
    ∧ ((encode_value "5678150a-5678-1234-1234-5678abcdeff0" "4294967295").map
      (decode_value "5678150a-5678-1234-1234-5678abcdeff0") = some "4294967295")
    ∧ ((encode_value "56781504-5678-1234-1234-5678abcdeff0" "18446744073709551615").map
      (decode_value "56781504-5678-1234-1234-5678abcdeff0") =
        some "18446744073709551615")
    ∧ ((encode_value "56781507-5678-1234-1234-5678abcdeff0" "True").map
      (decode_value "56781507-5678-1234-1234-5678abcdeff0") = some "True")
    ∧ ((encode_value "56781507-5678-1234-1234-5678abcdeff0" "False").map
      (decode_value "56781507-5678-1234-1234-5678abcdeff0") = some "False")
    ∧ ((encode_value "56781500-5678-1234-1234-5678abcdeff0" "OG1").map
      (decode_value "56781500-5678-1234-1234-5678abcdeff0") = some "OG1")
    ∧ ((encode_value "56781500-5678-1234-1234-5678abcdeff0" "OG1\x00\x00").map
      (decode_value "56781500-5678-1234-1234-5678abcdeff0") = some "OG1")
    ∧ (encode_value imuDataUuid
        (decode_value imuDataUuid ((List.range 22).map (fun i => i))) = none) := by
  refine ⟨?_, ?_, ?_, ?_, ?_, ?_, ?_, ?_, ?_, ?_, ?_, ?_⟩ <;> decide

theorem setLastSync_length (v : Int) : ∀ l : List TelemetryRow,
    (setLastSync v l).length = l.length
  | [] => rfl
  | [_] => rfl
  | r :: r' :: rs => by
    simp only [setLastSync, List.length_cons, setLastSync_length v (r' :: rs)]

theorem setLastSync_dropLast (v : Int) : ∀ l : List TelemetryRow,
    (setLastSync v l).dropLast = l.dropLast
  | [] => rfl
  | [_] => rfl
  | r :: r' :: rs => by
    cases rs with
    | nil => simp [setLastSync, List.dropLast]
    | cons r'' rs' =>
      have ih := setLastSync_dropLast v (r' :: r'' :: rs')
      simp only [setLastSync, List.dropLast] at ih ⊢
      rw [ih]

theorem setLastSync_getLast? (v : Int) : ∀ l : List TelemetryRow,
    (setLastSync v l).getLast? = l.getLast?.map (fun r => { r with sync := v })
  | [] => rfl
  | [_] => rfl
  | r :: r' :: rs => by
    cases rs with
    | nil => rfl
    | cons r'' rs' =>
      have ih := setLastSync_getLast? v (r' :: r'' :: rs')
      simp only [setLastSync] at ih ⊢
      rw [List.getLast?_cons_cons, ih]
      simp [List.getLast?_cons_cons]

theorem foldl_max_le_init : ∀ (xs : List ℚ) (x y : ℚ), x ≤ y → x ≤ xs.foldl max y
  | [], _, _, h => h
  | a :: l, x, y, h => foldl_max_le_init l x (max y a) (le_trans h (le_max_left _ _))

theorem foldl_min_le_init : ∀ (xs : List ℚ) (x y : ℚ), y ≤ x → xs.foldl min y ≤ x
  | [], _, _, h => h
  | a :: l, x, y, h => foldl_min_le_init l x (min y a) (le_trans (min_le_left _ _) h)

theorem foldMin_le_foldMax (x : ℚ) (xs : List ℚ) : foldMin x xs ≤ foldMax x xs :=
  le_trans (foldl_min_le_init xs x x le_rfl) (foldl_max_le_init xs x x le_rfl)

theorem foldl_appendRow_spec (r : TelemetryRow) :
    ∀ (n : Nat) (s : LogState), s.writerOpen = true → s.buffer.length < 100 →
      ((List.replicate n r).foldl appendRow s).buffer.length = (s.buffer.length + n) % 100
      ∧ ((List.replicate n r).foldl appendRow s).flushes =
          s.flushes ++ List.replicate ((s.buffer.length + n) / 100) 100
      ∧ ((List.replicate n r).foldl appendRow s).written.length =
          s.written.length + ((s.buffer.length + n) - (s.buffer.length + n) % 100)
      ∧ ((List.replicate n r).foldl appendRow s).writerOpen = true
      ∧ ((List.replicate n r).foldl appendRow s).loggingActive = s.loggingActive := by
  intro n
  induction n with
  | zero =>
    intro s hw hb
    refine ⟨?_, ?_, ?_, hw, rfl⟩
    · show s.buffer.length = (s.buffer.length + 0) % 100
      omega
    · show s.flushes = s.flushes ++ List.replicate ((s.buffer.length + 0) / 100) 100
      have hd : (s.buffer.length + 0) / 100 = 0 := by omega
      rw [hd]
      simp
    · show s.written.length =
        s.written.length + (s.buffer.length + 0 - (s.buffer.length + 0) % 100)
      omega
  | succ n ih =>
    intro s hw hb
    rw [List.replicate_succ, List.foldl_cons]
    by_cases hflush : 100 ≤ (s.buffer ++ [r]).length
    · have hb1 : s.buffer.length + 1 = 100 := by
        simp only [List.length_append, List.length_cons, List.length_nil] at hflush
        omega
      have happ : appendRow s r =
          ⟨[], s.written ++ (s.buffer ++ [r]), s.flushes ++ [(s.buffer ++ [r]).length],
            s.writerOpen, s.loggingActive⟩ := by
        simp only [appendRow, flush_imu_buffer]
        rw [if_pos hflush, if_neg (show ¬ ((s.buffer ++ [r]).isEmpty = true) by simp),
          if_pos hw]
      rw [happ]
      obtain ⟨e1, e2, e3, e4, e5⟩ := ih
        ⟨[], s.written ++ (s.buffer ++ [r]), s.flushes ++ [(s.buffer ++ [r]).length],
          s.writerOpen, s.loggingActive⟩ hw (by simp)
      simp only [List.length_append, List.length_cons, List.length_nil, Nat.zero_add,
        Nat.add_zero] at e1 e2 e3 e4 e5 ⊢
      refine ⟨?_, ?_, ?_, e4, e5⟩
      · rw [e1]; omega
      · have hd : (s.buffer.length + (n + 1)) / 100 = n / 100 + 1 := by omega
        rw [e2, hd, List.replicate_succ, hb1, List.append_assoc]
        rfl
      · rw [e3]; omega
    · have happ : appendRow s r =
          ⟨s.buffer ++ [r], s.written, s.flushes, s.writerOpen, s.loggingActive⟩ := by
        simp only [appendRow]
        rw [if_neg hflush]
      rw [happ]
      obtain ⟨e1, e2, e3, e4, e5⟩ := ih
        ⟨s.buffer ++ [r], s.written, s.flushes, s.writerOpen, s.loggingActive⟩ hw
        (by simp only [List.length_append, List.length_cons, List.length_nil] at hflush ⊢
            omega)
      simp only [List.length_append, List.length_cons, List.length_nil, Nat.zero_add,
        Nat.add_zero] at e1 e2 e3 e4 e5 ⊢
      have hsum : s.buffer.length + 1 + n = s.buffer.length + (n + 1) := by omega
      refine ⟨?_, ?_, ?_, e4, e5⟩
      · rw [e1]; omega
      · rw [e2, hsum]
      · rw [e3]; omega

/-- Claim C5: with flush threshold 100, appending 250 rows while logging
produces exactly two automatic flushes of exactly 100 rows each, writing
200 rows and leaving 50 buffered; the subsequent stop flushes the
remaining 50 rows (250 written in all) and closes the writer; and after
any append completes the buffer always holds fewer than 100 rows. -/
theorem claim_C5_buffer_flush :
    ((List.replicate 250 (mkImuRow 0 0 0 0 0 0 0 0 0 0 0 0 0 none none)).foldl appendRow
        ⟨[], [], [], true, true⟩).flushes = [100, 100]
    ∧ ((List.replicate 250 (mkImuRow 0 0 0 0 0 0 0 0 0 0 0 0 0 none none)).foldl appendRow
        ⟨[], [], [], true, true⟩).buffer.length = 50
    ∧ ((List.replicate 250 (mkImuRow 0 0 0 0 0 0 0 0 0 0 0 0 0 none none)).foldl appendRow
        ⟨[], [], [], true, true⟩).written.length = 200
    ∧ (stop_IMU_logging
        ((List.replicate 250 (mkImuRow 0 0 0 0 0 0 0 0 0 0 0 0 0 none none)).foldl appendRow
          ⟨[], [], [], true, true⟩)).flushes = [100, 100, 50]
    ∧ (stop_IMU_logging
        ((List.replicate 250 (mkImuRow 0 0 0 0 0 0 0 0 0 0 0 0 0 none none)).foldl appendRow
          ⟨[], [], [], true, true⟩)).buffer = []
    ∧ (stop_IMU_logging
        ((List.replicate 250 (mkImuRow 0 0 0 0 0 0 0 0 0 0 0 0 0 none none)).foldl appendRow
          ⟨[], [], [], true, true⟩)).written.length = 250
    ∧ (stop_IMU_logging
        ((List.replicate 250 (mkImuRow 0 0 0 0 0 0 0 0 0 0 0 0 0 none none)).foldl appendRow
          ⟨[], [], [], true, true⟩)).writerOpen = false
    ∧ (∀ (s : LogState) (r : TelemetryRow), ((appendRow s r).buffer).length < 100) := by
  obtain ⟨e1, e2, e3, e4, e5⟩ :=
    foldl_appendRow_spec (mkImuRow 0 0 0 0 0 0 0 0 0 0 0 0 0 none none) 250
      ⟨[], [], [], true, true⟩ rfl (by simp)
  have hbl : ((List.replicate 250 (mkImuRow 0 0 0 0 0 0 0 0 0 0 0 0 0 none none)).foldl
      appendRow ⟨[], [], [], true, true⟩).buffer.length = 50 := by rw [e1]; rfl
  have hfl : ((List.replicate 250 (mkImuRow 0 0 0 0 0 0 0 0 0 0 0 0 0 none none)).foldl
      appendRow ⟨[], [], [], true, true⟩).flushes = [100, 100] := by rw [e2]; rfl
  have hwl : ((List.replicate 250 (mkImuRow 0 0 0 0 0 0 0 0 0 0 0 0 0 none none)).foldl
      appendRow ⟨[], [], [], true, true⟩).written.length = 200 := by rw [e3]; rfl
  have hne : ¬ (((List.replicate 250 (mkImuRow 0 0 0 0 0 0 0 0 0 0 0 0 0 none none)).foldl
      appendRow ⟨[], [], [], true, true⟩).buffer.isEmpty = true) := by
    simp only [List.isEmpty_iff]
    intro hh
    rw [hh] at hbl
    simp at hbl
  have hstop : stop_IMU_logging ((List.replicate 250
      (mkImuRow 0 0 0 0 0 0 0 0 0 0 0 0 0 none none)).foldl appendRow
        ⟨[], [], [], true, true⟩) =
      { flush_imu_buffer ((List.replicate 250
          (mkImuRow 0 0 0 0 0 0 0 0 0 0 0 0 0 none none)).foldl appendRow
            ⟨[], [], [], true, true⟩) with writerOpen := false, loggingActive := false } := by
    unfold stop_IMU_logging
    rw [if_neg (by rw [e5]; simp), if_pos hne]
  have hflush : flush_imu_buffer ((List.replicate 250
      (mkImuRow 0 0 0 0 0 0 0 0 0 0 0 0 0 none none)).foldl appendRow
        ⟨[], [], [], true, true⟩) =
      { ((List.replicate 250 (mkImuRow 0 0 0 0 0 0 0 0 0 0 0 0 0 none none)).foldl appendRow
          ⟨[], [], [], true, true⟩) with
        buffer := [],
        written := ((List.replicate 250 (mkImuRow 0 0 0 0 0 0 0 0 0 0 0 0 0 none
          none)).foldl appendRow ⟨[], [], [], true, true⟩).written ++
            ((List.replicate 250 (mkImuRow 0 0 0 0 0 0 0 0 0 0 0 0 0 none none)).foldl
              appendRow ⟨[], [], [], true, true⟩).buffer,
        flushes := ((List.replicate 250 (mkImuRow 0 0 0 0 0 0 0 0 0 0 0 0 0 none
          none)).foldl appendRow ⟨[], [], [], true, true⟩).flushes ++ [50] } := by
    unfold flush_imu_buffer
    rw [if_neg hne, if_pos e4, hbl]
  refine ⟨hfl, hbl, hwl, ?_, ?_, ?_, ?_, ?_⟩
  · rw [hstop]
    simp only [hflush, hfl]
    rfl
  · rw [hstop]
    simp only [hflush]
  · rw [hstop]
    simp only [hflush, List.length_append, hwl, hbl]
  · rw [hstop]
  · intro s r
    simp only [appendRow, flush_imu_buffer]
    split
    · split
      · rename_i hemp
        simp at hemp
      · simp
    · rename_i hL
      simp only [List.length_append, List.length_cons, List.length_nil] at hL ⊢
      omega

/-- Claim C9: when at least one row is buffered, the sync operation
replies `"Sync Written"` and overwrites only the sync field of the most
recent buffered row — the buffer length, all earlier rows, the rows
already flushed to the file and every other part of the logging state are
unchanged — and newly appended rows carry sync `0` by default. -/
theorem claim_C9_sync_last_row :
    ∀ (s : LogState) (v : Int), s.buffer ≠ [] →
    (handle_sync v s).2 = "Sync Written"
    ∧ ((handle_sync v s).1.buffer).length = s.buffer.length
    ∧ ((handle_sync v s).1.buffer).dropLast = s.buffer.dropLast
    ∧ ((handle_sync v s).1.buffer).getLast? =
        s.buffer.getLast?.map (fun r => { r with sync := v })
    ∧ (handle_sync v s).1.written = s.written
    ∧ (handle_sync v s).1.flushes = s.flushes
    ∧ (handle_sync v s).1.writerOpen = s.writerOpen
    ∧ (handle_sync v s).1.loggingActive = s.loggingActive
    ∧ (∀ sa a1 a2 a3 g1 g2 g3 m1 m2 m3 roll pitch yaw unc bat,
        (mkImuRow sa a1 a2 a3 g1 g2 g3 m1 m2 m3 roll pitch yaw unc bat).sync = 0) := by
  intro s v h
  have hne : ¬ (s.buffer.isEmpty = true) := by simpa using h
  unfold handle_sync
  rw [if_neg hne]
  exact ⟨rfl, setLastSync_length v s.buffer, setLastSync_dropLast v s.buffer,
    setLastSync_getLast? v s.buffer, rfl, rfl, rfl, rfl,
    fun _ _ _ _ _ _ _ _ _ _ _ _ _ _ _ => rfl⟩

/-- Claim C9, witnessed on a concrete two-row buffer: the reply is
`"Sync Written"` and the last row's sync becomes 65536 while the first row
is untouched. -/
theorem claim_C9_witness :
    (handle_sync 65536 ⟨[mkImuRow 1 0 0 0 0 0 0 0 0 0 0 0 0 none none,
        mkImuRow 2 0 0 0 0 0 0 0 0 0 0 0 0 none none], [], [], true, true⟩).2 =
      "Sync Written"
    ∧ ((handle_sync 65536 ⟨[mkImuRow 1 0 0 0 0 0 0 0 0 0 0 0 0 none none,
        mkImuRow 2 0 0 0 0 0 0 0 0 0 0 0 0 none none], [], [], true, true⟩).1.buffer).getLast? =
      some { mkImuRow 2 0 0 0 0 0 0 0 0 0 0 0 0 none none with sync := 65536 }
    ∧ ((handle_sync 65536 ⟨[mkImuRow 1 0 0 0 0 0 0 0 0 0 0 0 0 none none,
        mkImuRow 2 0 0 0 0 0 0 0 0 0 0 0 0 none none], [], [], true, true⟩).1.buffer).dropLast =
      [mkImuRow 1 0 0 0 0 0 0 0 0 0 0 0 0 none none] := by
  have h := claim_C9_sync_last_row
    ⟨[mkImuRow 1 0 0 0 0 0 0 0 0 0 0 0 0 none none,
      mkImuRow 2 0 0 0 0 0 0 0 0 0 0 0 0 none none], [], [], true, true⟩ 65536 (by simp)
  refine ⟨h.1, ?_, ?_⟩
  · rw [h.2.2.2.1]; rfl
  · rw [h.2.2.1]; rfl

/-- Claim C7: the calibration model computed from a nonempty batch has,
per axis, offset `(max + min) / 2` (hence between the axis minimum and
maximum) and scale `avg_range / range` when `range > 0` and `1` otherwise,
with `avg_range` the mean of the three axis ranges; a missing calibration
file leaves the state untouched, so after the identity defaults of setup
the estimator proceeds with offset `(0,0,0)` and scale `(1,1,1)`. -/
theorem claim_C7_calibration :
    (∀ (x : ℚ) (xs : List ℚ) (y : ℚ) (ys : List ℚ) (z : ℚ) (zs : List ℚ) (st : OrientCfg),
      (load_magnetometer_calibration (some (x :: xs, y :: ys, z :: zs)) st).mag_offset =
        ⟨(foldMax x xs + foldMin x xs) / 2, (foldMax y ys + foldMin y ys) / 2,
          (foldMax z zs + foldMin z zs) / 2⟩
      ∧ (load_magnetometer_calibration (some (x :: xs, y :: ys, z :: zs)) st).mag_scale =
        ⟨if 0 < axisRange x xs then
            ((axisRange x xs + axisRange y ys + axisRange z zs) / 3) / axisRange x xs else 1,
          if 0 < axisRange y ys then
            ((axisRange x xs + axisRange y ys + axisRange z zs) / 3) / axisRange y ys else 1,
          if 0 < axisRange z zs then
            ((axisRange x xs + axisRange y ys + axisRange z zs) / 3) / axisRange z zs else 1⟩
      ∧ foldMin x xs ≤
          (load_magnetometer_calibration (some (x :: xs, y :: ys, z :: zs)) st).mag_offset.x
      ∧ (load_magnetometer_calibration
          (some (x :: xs, y :: ys, z :: zs)) st).mag_offset.x ≤ foldMax x xs)
    ∧ (∀ st : OrientCfg, load_magnetometer_calibration none st = st)
    ∧ setupCalibration = ⟨⟨0, 0, 0⟩, ⟨1, 1, 1⟩⟩
    ∧ load_magnetometer_calibration none setupCalibration = ⟨⟨0, 0, 0⟩, ⟨1, 1, 1⟩⟩ := by
  refine ⟨?_, fun _ => rfl, rfl, rfl⟩
  intro x xs y ys z zs st
  refine ⟨rfl, rfl, ?_, ?_⟩
  · have h := foldMin_le_foldMax x xs
    show foldMin x xs ≤ axisOffset x xs
    unfold axisOffset
    linarith
  · have h := foldMin_le_foldMax x xs
    show axisOffset x xs ≤ foldMax x xs
    unfold axisOffset
    linarith

theorem decode_imu_short {data : List Nat} (h : data.length < 22) :
    decode_value imuDataUuid data = "<decode error>" := by
  have h22 : ¬ (22 ≤ data.length) := by omega
  have hl : lookupType imuDataUuid = "uint32+int16[9]" := rfl
  simp only [decode_value, hl]
  rw [if_neg (by decide), if_neg (by decide), if_neg (by decide), if_neg (by decide),
    if_neg (by decide), if_neg (by decide), if_pos trivial, if_neg h22]

/-- Claim C8: a malformed IMU notification — any payload shorter than the
22-byte record, which is exactly when the composite decode fails — is
skipped as a local error with the whole client state unchanged: the sample
counter is not incremented, no telemetry row is buffered, the orientation
oracle (filter and smoothing state) is never invoked, and the handler
returns normally for every input. -/
theorem claim_C8_malformed_skipped :
    ∀ {O : Type} (orientFn : List Int → O → (ℚ × ℚ × ℚ) × O) (uncFn : O → Option ℚ)
      (st : ImuClientState O) (data : List Nat), data.length < 22 →
      handle_imu_data_notification orientFn uncFn st data = st := by
  intro O oF uF st data h
  unfold handle_imu_data_notification
  rw [decode_imu_short h]
  have hp : parseImuValues "<decode error>" = none := by decide
  rw [hp]

/-- Claim C8, witnessed on the 3-byte payload `[1, 2, 3]`: the handler
leaves a concrete state (counter 0, logging enabled, empty buffer)
entirely unchanged. -/
theorem claim_C8_witness :
    handle_imu_data_notification (fun _ (_ : Unit) => ((0, 0, 0), ())) (fun _ => none)
      ⟨0, true, ⟨[], [], [], true, true⟩, (), none⟩ [1, 2, 3] =
      ⟨0, true, ⟨[], [], [], true, true⟩, (), none⟩ :=
  claim_C8_malformed_skipped _ _ _ _ (by decide)

/-- Claim C6 counterexample: for a message containing both the connect and
the trigger patterns, the claim's precedence list (connect first) selects
the connect action, but the code's `if/elif` chain tests trigger first and
executes the trigger action. -/
theorem claim_C6_counterexample :
    specClaimedOpcode "optogrid.connect = OG7 optogrid.trigger" = some Opcode.connect
    ∧ executedOpcode "optogrid.connect = OG7 optogrid.trigger" = some Opcode.trigger
    ∧ Opcode.connect ≠ Opcode.trigger := by
  refine ⟨by decide, by decide, by decide⟩

/-- Claim C6 amended: the dispatcher determines the opcode by first match
in the code's fixed precedence order — trigger, scan, status, connect,
gattread, enableIMU, disableIMU, startIMULog, stopIMULog, readbattery,
readuLEDCheck, readlastStim, sync, toggleStatusLED, toggleShamLED,
program: the branch executed for any message is the first entry of that
list whose pattern occurs in the message text. -/
theorem claim_C6_amended : ∀ msg : String,
    executedOpcode msg =
      codePrecedence.find? (fun op => strContains msg (opcodeSubstring op)) := by
  intro msg
  simp only [executedOpcode, codePrecedence]
  by_cases h1 : strContains msg "optogrid.trigger" = true
  · rw [if_pos h1, List.find?_cons_of_pos _ (by simpa [opcodeSubstring] using h1)]
  rw [if_neg h1, List.find?_cons_of_neg _ (by simpa [opcodeSubstring] using h1)]
  by_cases h2 : strContains msg "optogrid.scan" = true
  · rw [if_pos h2, List.find?_cons_of_pos _ (by simpa [opcodeSubstring] using h2)]
  rw [if_neg h2, List.find?_cons_of_neg _ (by simpa [opcodeSubstring] using h2)]
  by_cases h3 : strContains msg "optogrid.status" = true
  · rw [if_pos h3, List.find?_cons_of_pos _ (by simpa [opcodeSubstring] using h3)]
  rw [if_neg h3, List.find?_cons_of_neg _ (by simpa [opcodeSubstring] using h3)]
  by_cases h4 : strContains msg "optogrid.connect" = true
  · rw [if_pos h4, List.find?_cons_of_pos _ (by simpa [opcodeSubstring] using h4)]
  rw [if_neg h4, List.find?_cons_of_neg _ (by simpa [opcodeSubstring] using h4)]
  by_cases h5 : strContains msg "optogrid.gattread" = true
  · rw [if_pos h5, List.find?_cons_of_pos _ (by simpa [opcodeSubstring] using h5)]
  rw [if_neg h5, List.find?_cons_of_neg _ (by simpa [opcodeSubstring] using h5)]
  by_cases h6 : strContains msg "optogrid.enableIMU" = true
  · rw [if_pos h6, List.find?_cons_of_pos _ (by simpa [opcodeSubstring] using h6)]
  rw [if_neg h6, List.find?_cons_of_neg _ (by simpa [opcodeSubstring] using h6)]
  by_cases h7 : strContains msg "optogrid.disableIMU" = true
  · rw [if_pos h7, List.find?_cons_of_pos _ (by simpa [opcodeSubstring] using h7)]
  rw [if_neg h7, List.find?_cons_of_neg _ (by simpa [opcodeSubstring] using h7)]
  by_cases h8 : strContains msg "optogrid.startIMULog" = true
  · rw [if_pos h8, List.find?_cons_of_pos _ (by simpa [opcodeSubstring] using h8)]
  rw [if_neg h8, List.find?_cons_of_neg _ (by simpa [opcodeSubstring] using h8)]
  by_cases h9 : strContains msg "optogrid.stopIMULog" = true
  · rw [if_pos h9, List.find?_cons_of_pos _ (by simpa [opcodeSubstring] using h9)]
  rw [if_neg h9, List.find?_cons_of_neg _ (by simpa [opcodeSubstring] using h9)]
  by_cases h10 : strContains msg "optogrid.readbattery" = true
  · rw [if_pos h10, List.find?_cons_of_pos _ (by simpa [opcodeSubstring] using h10)]
  rw [if_neg h10, List.find?_cons_of_neg _ (by simpa [opcodeSubstring] using h10)]
  by_cases h11 : strContains msg "optogrid.readuLEDCheck" = true
  · rw [if_pos h11, List.find?_cons_of_pos _ (by simpa [opcodeSubstring] using h11)]
  rw [if_neg h11, List.find?_cons_of_neg _ (by simpa [opcodeSubstring] using h11)]
  by_cases h12 : strContains msg "optogrid.readlastStim" = true
  · rw [if_pos h12, List.find?_cons_of_pos _ (by simpa [opcodeSubstring] using h12)]
  rw [if_neg h12, List.find?_cons_of_neg _ (by simpa [opcodeSubstring] using h12)]
  rw [if_neg h5]
  by_cases h13 : strContains msg "optogrid.sync" = true
  · rw [if_pos h13, List.find?_cons_of_pos _ (by simpa [opcodeSubstring] using h13)]
  rw [if_neg h13, List.find?_cons_of_neg _ (by simpa [opcodeSubstring] using h13)]
  by_cases h14 : strContains msg "optogrid.toggleStatusLED" = true
  · rw [if_pos h14, List.find?_cons_of_pos _ (by simpa [opcodeSubstring] using h14)]
  rw [if_neg h14, List.find?_cons_of_neg _ (by simpa [opcodeSubstring] using h14)]
  by_cases h15 : strContains msg "optogrid.toggleShamLED" = true
  · rw [if_pos h15, List.find?_cons_of_pos _ (by simpa [opcodeSubstring] using h15)]
  rw [if_neg h15, List.find?_cons_of_neg _ (by simpa [opcodeSubstring] using h15)]
  by_cases h16 : strContains msg "optogrid.program" = true
  · rw [if_pos h16, List.find?_cons_of_pos _ (by simpa [opcodeSubstring] using h16)]
  rw [if_neg h16, List.find?_cons_of_neg _ (by simpa [opcodeSubstring] using h16)]
  rfl

/-- Claim C1: for every request the dispatcher sends exactly one reply —
two for the program opcode, whose first reply is the literal
`"Ready for program data"` and whose second is the result of applying the
one further payload message (an unparsable program payload still gets
exactly one final `"ERROR: ..."` reply); an unparsable sync payload gets a
single `"ERROR: ..."` reply; a message matching no opcode gets the single
reply `"Unknown command: <message>"`.  `handle_command` is a total
function, so no exception escapes the dispatch loop. -/
theorem claim_C1_dispatcher_replies : ∀ (env : DispatchEnv) (msg next : String),
    ((handle_command env msg next).length =
      if executedOpcode msg = some Opcode.program then 2 else 1)
    ∧ (executedOpcode msg = some Opcode.program →
        (handle_command env msg next).head? = some "Ready for program data")
    ∧ (executedOpcode msg = none →
        handle_command env msg next = ["Unknown command: " ++ msg])
    ∧ (executedOpcode msg = some Opcode.sync → (splitEqArg msg).bind pyInt = none →
        ∃ d, handle_command env msg next = ["ERROR: " ++ d])
    ∧ (executedOpcode msg = some Opcode.program → env.programParseOk next = false →
        handle_command env msg next =
          ["Ready for program data", "ERROR: " ++ env.evalErr next]) := by
  intro env msg next
  rcases hop : executedOpcode msg with _ | op
  · simp [handle_command, hop]
  · cases op
    case trigger => simp [handle_command, hop]
    case scan => simp [handle_command, hop]
    case status => simp [handle_command, hop]
    case connect =>
      rcases hsp : splitEqArg msg with _ | a <;> simp [handle_command, hop, hsp]
    case gattread =>
      cases hq : strContains msg "=" <;> simp [handle_command, hop, hq]
    case enableIMU => simp [handle_command, hop]
    case disableIMU => simp [handle_command, hop]
    case startIMULog =>
      rcases hsp : splitEqArg msg with _ | params
      · simp [handle_command, hop, hsp]
      · rcases hL : (splitOnChar ',' params.data).map (fun p => String.mk (stripChars p)) with
          _ | ⟨a, _ | ⟨b, _ | ⟨c, t⟩⟩⟩ <;> simp [handle_command, hop, hsp, hL]
    case stopIMULog => simp [handle_command, hop]
    case readbattery => simp [handle_command, hop]
    case readuLEDCheck => simp [handle_command, hop]
    case readlastStim => simp [handle_command, hop]
    case sync =>
      rcases hsp : splitEqArg msg with _ | a
      · refine ⟨by simp [handle_command, hop, hsp], by simp [hop], by simp [hop], ?_,
          by simp [hop]⟩
        intro _ _
        exact ⟨"list index out of range", by simp [handle_command, hop, hsp]⟩
      · rcases hpi : pyInt a with _ | n
        · refine ⟨by simp [handle_command, hop, hsp, hpi], by simp [hop], by simp [hop], ?_,
            by simp [hop]⟩
          intro _ _
          exact ⟨env.intErr a, by simp [handle_command, hop, hsp, hpi]⟩
        · refine ⟨by simp [handle_command, hop, hsp, hpi], by simp [hop], by simp [hop], ?_,
            by simp [hop]⟩
          intro _ hnone
          simp [hpi] at hnone
    case toggleStatusLED =>
      rcases hsp : splitEqArg msg with _ | a
      · simp [handle_command, hop, hsp]
      · rcases hpi : pyInt a with _ | n <;> simp [handle_command, hop, hsp, hpi]
    case toggleShamLED =>
      rcases hsp : splitEqArg msg with _ | a
      · simp [handle_command, hop, hsp]
      · rcases hpi : pyInt a with _ | n <;> simp [handle_command, hop, hsp, hpi]
    case program =>
      cases hpk : env.programParseOk next <;> simp [handle_command, hop, hpk]

/-- Claim C1, witnessed on concrete messages: an unknown opcode gets the
single `Unknown command` reply; the program opcode gets exactly two
replies with `"Ready for program data"` first. -/
theorem claim_C1_witness :
    handle_command sampleEnv "hello" "x" = ["Unknown command: hello"]
    ∧ (handle_command sampleEnv "optogrid.program" "d").length = 2
    ∧ (handle_command sampleEnv "optogrid.program" "d").head? =
        some "Ready for program data" := by
  refine ⟨?_, ?_, ?_⟩
  · exact (claim_C1_dispatcher_replies sampleEnv "hello" "x").2.2.1 (by decide)
  · have h := (claim_C1_dispatcher_replies sampleEnv "optogrid.program" "d").1
    rw [show executedOpcode "optogrid.program" = some Opcode.program by decide] at h
    simpa using h
  · exact (claim_C1_dispatcher_replies sampleEnv "optogrid.program" "d").2.1 (by decide)
